import Mathlib

/-!
Verification development for the `assistant-backend` streaming chat service.

The Python source is shallowly embedded in Lean:
* mutable objects become explicit state records that functions thread through;
* Python strings are modelled as `List Char` in the character-level tag
  processor (so that splitting/stripping can be reasoned about by list
  induction) and as `String` in the agent layer (where payloads are opaque);
* asynchronous generators become functions returning the list of events they
  yield, together with the final state;
* the unbounded `while` loop of the conversation agent is driven by an explicit
  fuel parameter; `none` means the modelled execution budget was exhausted
  before the loop finished, `some` is a run that actually terminated;
* exceptions that escape the agent (`AttributeError`, `IndexError`) are
  modelled with an explicit `PyError` outcome.
-/

/-! ## Python string/list semantics helpers -/

/-- Python `str.strip()` on a character list: remove leading and trailing
whitespace. -/
def pyStrip (l : List Char) : List Char :=
  ((l.dropWhile Char.isWhitespace).reverse.dropWhile Char.isWhitespace).reverse

/-- Python `s.split(sep, 1)`: split on the first occurrence of `sep`.
Returns `(before, some after)` when `sep` occurs in `l` (Python's two-element
result list), and `(l, none)` when it does not (Python's one-element result,
which is also the `sep in s` test). -/
def splitFirst (sep : Char) : List Char → List Char × Option (List Char)
  | [] => ([], none)
  | c :: cs =>
    if c = sep then ([], some cs)
    else
      let r := splitFirst sep cs
      (c :: r.1, r.2)

/-- Python string truthiness composed with `or`: `a or b` for strings. -/
def pyOr (a b : List Char) : List Char := if a = [] then b else a

/-- Python `l[-n:]` for `n ≥ 0` (note `l[-0:]` is the whole list). -/
def pyLastSlice {α : Type} (l : List α) (n : Nat) : List α :=
  if n = 0 then l else l.drop (l.length - n)

/-- Python `l[i]` for an `int` index: negative indices count from the end;
`none` models an `IndexError`. -/
def pyListGet {α : Type} (l : List α) (i : Int) : Option α :=
  let j : Int := if 0 ≤ i then i else i + l.length
  if 0 ≤ j ∧ j < (l.length : Int) then l.get? j.toNat else none

/-! ## `src/services/tag_processor.py` -/

namespace TagProc

/-- `ProcessingState` enum. -/
inductive ProcessingState
  | LOOKING_FOR_TAG
  | READING_TAG
  | READING_CONTENT
deriving DecidableEq

/-- `TagProcessingMode` flag: `STREAM_AND_BUFFER = STREAM | BUFFER`. -/
inductive TagProcessingMode
  | STREAM
  | BUFFER
  | STREAM_AND_BUFFER
deriving DecidableEq

/-- `TagConfig` pydantic model (mode defaults to `BUFFER`, `buffer_tag` to
`None`).  The `validate_buffer_tag` validator is irrelevant here: the only
configuration used by the agent satisfies it. -/
structure TagConfig where
  mode : TagProcessingMode := .BUFFER
  buffer_tag : Option (List Char) := none
deriving DecidableEq

/-- `TagProcessor._is_streaming_config`: `bool(config.mode & STREAM)`. -/
def isStreamingConfig (c : TagConfig) : Bool :=
  match c.mode with
  | .STREAM => true
  | .STREAM_AND_BUFFER => true
  | .BUFFER => false

/-- `TagProcessor._is_buffering_config`: `bool(config.mode & BUFFER)`. -/
def isBufferingConfig (c : TagConfig) : Bool :=
  match c.mode with
  | .BUFFER => true
  | .STREAM_AND_BUFFER => true
  | .STREAM => false

/-- The `tag_config: Dict[str, TagConfig]` constructor argument, as an
association list; `lookupConfig` is `self.tag_config.get(tag, TagConfig())`. -/
def Config : Type := List (List Char × TagConfig)

/-- Dictionary lookup with the `TagConfig()` default. -/
def lookupConfig (cfg : Config) (tag : List Char) : TagConfig :=
  match cfg.find? (fun p => p.1 = tag) with
  | some p => p.2
  | none => {}

/-- The mutable fields of a `TagProcessor` instance. -/
structure TPState where
  state : ProcessingState := .LOOKING_FOR_TAG
  current_tag : List Char := []
  content_buffer : List Char := []
  tag_buffer : List Char := []
  debug_content : List Char := []
deriving DecidableEq

/-- A `{"tag": ..., "content": ...}` dictionary yielded by the processor. -/
structure TPEvent where
  tag : List Char
  content : List Char
deriving DecidableEq

/-- `TagProcessor._flush_buffers`: returns the emitted events and the state
with `content_buffer` and `current_tag` reset.  Python string truthiness is
compared against `[]`. -/
def flushBuffers (cfg : Config) (s : TPState) : List TPEvent × TPState :=
  let results :=
    if s.content_buffer ≠ [] ∨ s.current_tag ≠ [] then
      let config := lookupConfig cfg s.current_tag
      let content := pyStrip s.content_buffer
      if content ≠ [] ∨ s.current_tag ≠ [] then
        if isBufferingConfig config then
          let buffer_tag :=
            pyOr (config.buffer_tag.getD []) (pyOr s.current_tag "unknown".toList)
          [TPEvent.mk buffer_tag content]
        else []
      else []
    else []
  (results, { s with content_buffer := [], current_tag := [] })

/-- `TagProcessor._process_token`. -/
def processToken (cfg : Config) (s : TPState) (token : List Char) :
    List TPEvent × TPState :=
  match s.state with
  | .LOOKING_FOR_TAG =>
    match token with
    | c :: rest =>
      if c = '§' then
        -- token.startswith('§'): flush, then read the tag name from token[1:]
        let r := flushBuffers cfg s
        (r.1, { r.2 with state := .READING_TAG, tag_buffer := rest })
      else
        ([], { s with content_buffer := s.content_buffer ++ token })
    | [] => ([], { s with content_buffer := s.content_buffer ++ token })
  | .READING_TAG =>
    match splitFirst '\n' token with
    | (before, some after) =>
      -- '\n' in token: close the tag name, the remainder is content
      let tagbuf := s.tag_buffer ++ before
      let ctag := pyStrip tagbuf
      let s' : TPState :=
        { s with current_tag := ctag, tag_buffer := [],
                 state := .READING_CONTENT,
                 content_buffer := s.content_buffer ++ after }
      let config := lookupConfig cfg ctag
      (if isStreamingConfig config then [TPEvent.mk ctag []] else [], s')
    | (_, none) =>
      ([], { s with tag_buffer := s.tag_buffer ++ token })
  | .READING_CONTENT =>
    match splitFirst '§' token with
    | (before, some after) =>
      -- '§' in token: finish the current section, start reading a new tag
      let s' := { s with content_buffer := s.content_buffer ++ before }
      let r := flushBuffers cfg s'
      (r.1, { r.2 with state := .READING_TAG, tag_buffer := after })
    | (_, none) =>
      let s' := { s with content_buffer := s.content_buffer ++ token }
      let config := lookupConfig cfg s.current_tag
      (if isStreamingConfig config then [TPEvent.mk s.current_tag token] else [],
       s')

/-- The token loop of `TagProcessor.process_stream`: accumulate
`debug_content` and run `_process_token` for each token.  (The `if result:`
filter in the source is vacuous: every yielded dictionary is non-empty, hence
truthy.) -/
def processTokens (cfg : Config) (s : TPState) :
    List (List Char) → List TPEvent × TPState
  | [] => ([], s)
  | t :: ts =>
    let s1 := { s with debug_content := s.debug_content ++ t }
    let r1 := processToken cfg s1 t
    let r2 := processTokens cfg r1.2 ts
    (r1.1 ++ r2.1, r2.2)

/-- `TagProcessor.process_stream` on a fresh processor: the full list of
yielded events (token events, then the end-of-stream flush, then the `debug`
event when any input arrived). -/
def processStream (cfg : Config) (tokens : List (List Char)) : List TPEvent :=
  let r := processTokens cfg {} tokens
  let f := flushBuffers cfg r.2
  r.1 ++ f.1 ++
    (if f.2.debug_content ≠ [] then
      [TPEvent.mk "debug".toList f.2.debug_content]
    else [])

/-- The `tag_config` built in `ConversationManager._create_tag_processor`
(keys are the string values of the `Tag` enum). -/
def agentTagConfig : Config :=
  [("plan".toList, {}),
   ("reasoning".toList, {}),
   ("text".toList,
     { mode := .STREAM_AND_BUFFER, buffer_tag := some "full_text".toList }),
   ("tool".toList, {}),
   ("status".toList, {}),
   ("summary".toList, {}),
   ("debug".toList, {})]

end TagProc

/-! ## `src/models/chat_models.py` -/

namespace ChatModels

/-- `Role` string enum. -/
inductive Role
  | human
  | ai
  | system
deriving DecidableEq

/-- `MessageEntry` pydantic model. -/
structure MessageEntry where
  role : Role
  content : String
deriving DecidableEq

/-- `ConversationContext` pydantic model. -/
structure ConversationContext where
  conversation_history : List MessageEntry := []
  conversation_summary : Option String := none
deriving DecidableEq

/-- `ConversationContext.add_message`. -/
def ConversationContext.add_message (c : ConversationContext) (role : Role)
    (content : String) : ConversationContext :=
  { c with conversation_history :=
      c.conversation_history ++ [MessageEntry.mk role content] }

/-- `ConversationContext.set_summary`. -/
def ConversationContext.set_summary (c : ConversationContext) (summary : String) :
    ConversationContext :=
  { c with conversation_summary := some summary }

/-- `ConversationContext.get_recent_messages` with
`limit = settings.MAX_HISTORY_MESSAGES` (default `10` in `src/config.py`):
Python `self.conversation_history[-limit:]`.  (The source returns the entries
dumped to dictionaries; the dictionaries are immediately re-read field by
field by the message preparer, so the entries themselves are returned here.) -/
def ConversationContext.get_recent_messages (c : ConversationContext)
    (limit : Nat := 10) : List MessageEntry :=
  pyLastSlice c.conversation_history limit

end ChatModels

/-! ## `src/models/prompt_structures.py` -/

namespace PromptStructures

/-- `Tool` pydantic model (a tool reference inside a plan step). -/
structure Tool where
  name : String
  depends_on : List String := []
deriving DecidableEq

/-- `Step` pydantic model. -/
structure Step where
  description : String
  status : String
  tools : List Tool := []
deriving DecidableEq

/-- `Plan` pydantic model.  `current_step` and `total_steps` are Python `int`
(unbounded, possibly negative — the model declares no range validators). -/
structure Plan where
  steps : List Step
  current_step : Int
  total_steps : Int
deriving DecidableEq

/-- `Reasoning` pydantic model. -/
structure Reasoning where
  thought : String
  user_notification : String
deriving DecidableEq

/-- `ToolUse` pydantic model.  `arguments: dict` holds JSON values; the values
are modelled by their serialized form, which is all the agent core ever does
with them (it passes the dictionary through to the tool). -/
structure ToolUse where
  id : String
  name : String
  arguments : List (String × String)
  user_notification : String
deriving DecidableEq

/-- `Status` pydantic model.  NOTE: in `src/models/prompt_structures.py` the
`status` field is a plain `str`, not a `StatusEnum` — this is load-bearing for
claims C2 and C8 below. -/
structure Status where
  status : String
  reason : Option String := none
deriving DecidableEq

/-- The `langchain` message kinds used by the agent (`BaseMessage.type` is the
string `"human"`, `"ai"` or `"system"`). -/
inductive MsgType
  | human
  | ai
  | system
deriving DecidableEq

/-- A `langchain` `BaseMessage`: `HumanMessage`/`AIMessage`/`SystemMessage`
with its `content`. -/
structure BaseMsg where
  type : MsgType
  content : String
deriving DecidableEq

/-- A `{id, name, result}` or `{id, name, error}` tool-result dictionary. -/
inductive ToolOutcome
  | result (r : String)
  | error (e : String)
deriving DecidableEq

/-- A tool result as recorded in `state.tool_results` and carried by
`tool_end` events. -/
structure ToolResult where
  id : String
  name : String
  outcome : ToolOutcome
deriving DecidableEq

/-- `LLMProcessingState` pydantic model.

The `max_iterations` field is read and written by
`IterationController` in `src/services/conversation_agent.py` but is absent
from the `LLMProcessingState` declaration in `src/models/prompt_structures.py`
(the repository ships divergent versions of this module).
Modelled from the spec: `max_iterations: integer ≥ 1 (default 3)` and
"Set `state.max_iterations = default_max_iterations` (3)". -/
structure LLMProcessingState where
  current_plan : Option Plan := none
  reasoning_history : List String := []
  tool_queue : List ToolUse := []
  messages : List BaseMsg := []
  summary : Option String := none
  summary_history : List String := []
  latest_summary : Option String := none
  status : Option Status := none
  tool_results : List ToolResult := []
  max_iterations : Int := 3
deriving DecidableEq

/-- `LLMProcessingState.add_message` (and the `add_system_message` /
`add_ai_message` wrappers called by the agent, which are likewise absent from
the shipped `prompt_structures.py`).  Modelled from the spec: initialization
appends the system prompt to the state's message list, and the `full_text`
event appends an `{role: ai, content}` entry to state history. -/
def LLMProcessingState.add_message (s : LLMProcessingState) (m : BaseMsg) :
    LLMProcessingState :=
  { s with messages := s.messages ++ [m] }

/-- `LLMProcessingState.add_tool_result`. -/
def LLMProcessingState.add_tool_result (s : LLMProcessingState)
    (r : ToolResult) : LLMProcessingState :=
  { s with tool_results := s.tool_results ++ [r] }

end PromptStructures

/-! ## `src/services/message_preparer.py` -/

namespace MessagePreparer

open ChatModels PromptStructures

/-- The `message_map` of `MessagePreparer._get_recent_messages`: role strings
to `langchain` message constructors. -/
def roleToMsgType : Role → MsgType
  | .human => .human
  | .ai => .ai
  | .system => .system

/-- One entry converted by `MessagePreparer._get_recent_messages`. -/
def entryToMessage (e : MessageEntry) : BaseMsg :=
  ⟨roleToMsgType e.role, e.content⟩

/-- `MessagePreparer._get_format_instructions()`.  The instructions are a
static ~70-line prompt template (the bracketed tag grammar and the rendered
tool list); no claim inspects its text, only its position in the prepared
prompt, so the literal is abbreviated here. -/
def formatInstructions : String :=
  "Available tools: ... CRITICAL: You MUST include PLAN, REASONING, STATUS," ++
  " and SUMMARY in EVERY response. ..."

/-- `MessagePreparer.get_tool_error_message`. -/
def getToolErrorMessage (tool_name error : String) : String :=
  "Error using " ++ tool_name ++ ": " ++ error ++ ". " ++
  "Do not use this tool again for this query. " ++
  "This error might affect the quality or completeness of the information " ++
  "provided. " ++
  "Consider alternative approaches or ask the user for different ways to " ++
  "obtain the required information. " ++
  "If you need this type of information, try rephrasing the query or using " ++
  "a different method."

/-- `MessagePreparer.prepare_messages`: the summary system message is added
only when `state.summary` is truthy (neither `None` nor the empty string);
then the recent history, the human message, and the format instructions. -/
def prepareMessages (ctx : ConversationContext) (state : LLMProcessingState)
    (message : String) : List BaseMsg :=
  (match state.summary with
   | some s =>
     if s ≠ "" then [BaseMsg.mk .system ("Conversation summary: " ++ s)]
     else []
   | none => []) ++
  (ctx.get_recent_messages.map entryToMessage) ++
  [BaseMsg.mk .human message, BaseMsg.mk .system formatInstructions]

end MessagePreparer

/-! ## `src/services/conversation_agent.py` -/

namespace Agent

open ChatModels PromptStructures TagProc MessagePreparer

/-- The `Tag` string enum of `src/models/tags.py`. -/
inductive Tag
  | PLAN
  | REASONING
  | TEXT
  | FULL_TEXT
  | TOOL
  | SUMMARY
  | STATUS
  | DEBUG
  | ERROR
  | TOOL_START
  | TOOL_END
  | UPDATED_CONTEXT
deriving DecidableEq

/-- `Tag(value)` on a raw tag string: `some` on the twelve enum values,
`none` models the `ValueError`. -/
def parseTag (t : List Char) : Option Tag :=
  if t = "plan".toList then some .PLAN
  else if t = "reasoning".toList then some .REASONING
  else if t = "text".toList then some .TEXT
  else if t = "full_text".toList then some .FULL_TEXT
  else if t = "tool".toList then some .TOOL
  else if t = "summary".toList then some .SUMMARY
  else if t = "status".toList then some .STATUS
  else if t = "debug".toList then some .DEBUG
  else if t = "error".toList then some .ERROR
  else if t = "tool_start".toList then some .TOOL_START
  else if t = "tool_end".toList then some .TOOL_END
  else if t = "updated_context".toList then some .UPDATED_CONTEXT
  else none

/-- The `content` payload of an outbound event dictionary. -/
inductive EventContent
  | str (s : String)
  | toolStart (id name description user_notification : String)
  | toolEnd (r : ToolResult)
  | ctx (c : ConversationContext)
deriving DecidableEq

/-- An outbound event, as built by `ResponseFormatter.format_response`. -/
structure Event where
  type : Tag
  content : EventContent
deriving DecidableEq

/-- Shorthand for an `error` event with a string message. -/
def errEvent (msg : String) : Event := ⟨.ERROR, .str msg⟩

/-- A registered tool as the agent core sees it (`BaseTool.name` /
`BaseTool.description`; execution is external, see `External.runTool`). -/
structure RegisteredTool where
  name : String
  description : String
deriving DecidableEq

/-- The tool list built in `ConversationManager.__init__`:
`[WebSearchTool(), WebParseTool(), MathTool(), DateTimeTool()]`. -/
def agentTools : List RegisteredTool :=
  [⟨"web_search",
    "Performs a web search based on the given query and returns a list of " ++
    "relevant URLs. Use this tool to find up-to-date information on the " ++
    "internet. The search is performed in the same language as the user's " ++
    "input."⟩,
   ⟨"web_parse",
    "Parses and analyzes the content of web pages from a given list of " ++
    "URLs, extracting main text and optionally summarizing it."⟩,
   ⟨"math_evaluation",
    "Evaluates mathematical expressions. Use this tool for calculations, " ++
    "including basic arithmetic, trigonometric functions, logarithms, and " ++
    "more. Provide the expression as a string."⟩,
   ⟨"get_datetime",
    "Returns the current date and time, or a date/time with a specified " ++
    "offset. You can specify the format, timezone, and offset. Use this to " ++
    "get accurate, up-to-date time information or calculate future/past " ++
    "dates."⟩]

/-- `ToolManager.get_tool`: first tool with a matching name, else `None`. -/
def getTool (name : String) : Option RegisteredTool :=
  agentTools.find? (fun t => t.name = name)

/-- The pydantic `model_validate_json` validators for the four buffered
payload schemas.  pydantic is an external library, so the agent model is
parameterized over them; `Except.error` carries the stringified
`ValidationError` used in the emitted error message. -/
structure Validators where
  plan : String → Except String Plan
  reasoning : String → Except String Reasoning
  toolUse : String → Except String ToolUse
  status : String → Except String Status

/-- The external collaborators of one request: the LLM token stream for each
iteration (`LLMService.stream`, fed the prepared messages), the tool
executor (`BaseTool.arun`; `Except.error` models a raised exception), and
`Plan.model_dump_json`. -/
structure External where
  llm : Nat → List BaseMsg → List (List Char)
  runTool : RegisteredTool → ToolUse → Except String String
  planJson : Plan → String

/-- `TagHandler.handle_plan_tag`: replace `state.current_plan` when absent or
changed, or emit a validation error event. -/
def handlePlanTag (v : Validators) (content : String)
    (state : LLMProcessingState) : Option Event × LLMProcessingState :=
  match v.plan content with
  | .ok new_plan =>
    (none,
     if state.current_plan = none ∨ state.current_plan ≠ some new_plan then
       { state with current_plan := some new_plan }
     else state)
  | .error e => (some (errEvent ("Failed to validate Plan: " ++ e)), state)

/-- `TagHandler.handle_reasoning_tag`: append the thought to
`reasoning_history` and emit a `reasoning` event with the notification. -/
def handleReasoningTag (v : Validators) (content : String)
    (state : LLMProcessingState) : Option Event × LLMProcessingState :=
  match v.reasoning content with
  | .ok r =>
    (some ⟨.REASONING, .str r.user_notification⟩,
     { state with reasoning_history := state.reasoning_history ++ [r.thought] })
  | .error e => (some (errEvent ("Failed to validate Reasoning: " ++ e)), state)

/-- `TagHandler.handle_tool_tag`: append the parsed `ToolUse` to the queue. -/
def handleToolTag (v : Validators) (content : String)
    (state : LLMProcessingState) : Option Event × LLMProcessingState :=
  match v.toolUse content with
  | .ok tu => (none, { state with tool_queue := state.tool_queue ++ [tu] })
  | .error e => (some (errEvent ("Failed to validate ToolUse: " ++ e)), state)

/-- `TagHandler.handle_full_text_tag`: `state.add_ai_message(content)`. -/
def handleFullTextTag (content : String) (state : LLMProcessingState) :
    Option Event × LLMProcessingState :=
  (none, state.add_message ⟨.ai, content⟩)

/-- `TagHandler.handle_summary_tag`: append to `summary_history`, set
`latest_summary`, and recompose `state.summary` (the join runs over the
history without its freshly appended last element). -/
def handleSummaryTag (content : String) (state : LLMProcessingState) :
    Option Event × LLMProcessingState :=
  let sh := state.summary_history ++ [content]
  (none,
   { state with
       summary_history := sh,
       latest_summary := some content,
       summary := some ("Previous summaries: " ++
         String.intercalate " | " sh.dropLast ++
         "\nLatest summary: " ++ content) })

/-- `TagHandler.handle_status_tag`. -/
def handleStatusTag (v : Validators) (content : String)
    (state : LLMProcessingState) : Option Event × LLMProcessingState :=
  match v.status content with
  | .ok st => (none, { state with status := some st })
  | .error e => (some (errEvent ("Failed to validate Status: " ++ e)), state)

/-- `ConversationManager._process_llm_response` for one tag-processor event:
`Tag(event['tag'])` failing yields an `Invalid tag` error event; the
`tag_handlers` dictionary covers eight tags, every other parsed tag falls to
`TagHandler.handle_unknown_tag` (an `Unexpected tag received` error event). -/
def dispatchEvent (v : Validators) (e : TPEvent)
    (state : LLMProcessingState) : Option Event × LLMProcessingState :=
  match parseTag e.tag with
  | none =>
    (some (errEvent ("Invalid tag: " ++ String.mk e.tag)), state)
  | some tag =>
    match tag with
    | .PLAN => handlePlanTag v (String.mk e.content) state
    | .REASONING => handleReasoningTag v (String.mk e.content) state
    | .TOOL => handleToolTag v (String.mk e.content) state
    | .FULL_TEXT => handleFullTextTag (String.mk e.content) state
    | .SUMMARY => handleSummaryTag (String.mk e.content) state
    | .STATUS => handleStatusTag v (String.mk e.content) state
    | .DEBUG => (none, state)
    | .TEXT => (some ⟨.TEXT, .str (String.mk e.content)⟩, state)
    | _ => (some (errEvent ("Unexpected tag received: " ++ String.mk e.tag)),
            state)

/-- `ConversationManager._process_llm_response`: run the tag processor over
the LLM token stream and dispatch every event. -/
def processLLMResponse (v : Validators) (tokens : List (List Char))
    (state : LLMProcessingState) : List Event × LLMProcessingState :=
  (processStream agentTagConfig tokens).foldl
    (fun acc tpe =>
      let r := dispatchEvent v tpe acc.2
      (acc.1 ++ r.1.toList, r.2))
    ([], state)

/-- The `has_error` flag of `_conversation_loop`: some yielded event has type
`error`. -/
def hasError (evs : List Event) : Bool :=
  evs.any (fun e => e.type = .ERROR)

/-- `ConversationManager._process_single_tool`: an unknown tool name yields a
single `error` event and calls no tool; otherwise a `tool_start` event, the
execution, and a `tool_end` event carrying the result or the advisory error
message for a raised exception. -/
def processSingleTool (ext : External) (tu : ToolUse) : List Event :=
  match getTool tu.name with
  | none =>
    [errEvent
      ("Tool '" ++ tu.name ++ "' is not available. Please use a different tool.")]
  | some tool =>
    [⟨.TOOL_START, .toolStart tu.id tool.name tool.description
        tu.user_notification⟩,
     match ext.runTool tool tu with
     | .ok r => ⟨.TOOL_END, .toolEnd ⟨tu.id, tool.name, .result r⟩⟩
     | .error e =>
       ⟨.TOOL_END, .toolEnd ⟨tu.id, tool.name,
         .error (getToolErrorMessage tu.name e)⟩⟩]

/-- The consumer side of `_handle_tool_queue` as driven by
`_conversation_loop`: each yielded event is forwarded; after a `tool_end`
event the generator is resumed, which records the result in
`state.tool_results`; at the first `error` event the consumer returns, which
closes the generator at its yield — so the `error` branch's
`add_tool_result` and the final `tool_queue.clear()` never run.  Returns the
forwarded events, the updated state, and whether the loop aborted. -/
def foldToolEvents (state : LLMProcessingState) :
    List Event → List Event × LLMProcessingState × Bool
  | [] => ([], state, false)
  | e :: es =>
    if e.type = .ERROR then ([e], state, true)
    else
      let state' :=
        match e.type, e.content with
        | .TOOL_END, .toolEnd r => state.add_tool_result r
        | _, _ => state
      let r := foldToolEvents state' es
      (e :: r.1, r.2)

/-- `_handle_tool_queue` with its consumer in `_conversation_loop`: the tool
queue is cleared only when the generator runs to completion (no `error`
event). -/
def handleToolQueue (ext : External) (state : LLMProcessingState) :
    List Event × LLMProcessingState × Bool :=
  let r := foldToolEvents state
    ((state.tool_queue.map (processSingleTool ext)).flatten)
  if r.2.2 then r
  else (r.1, { r.2.1 with tool_queue := [] }, false)

/-- The `extra_iterations` of the `IterationController()` instance built in
`ConversationManager.__init__` (constructor default `1`). -/
def extraIterations : Int := 1

/-- `IterationController.should_terminate`. -/
def shouldTerminate (iteration : Nat) (state : LLMProcessingState) : Bool :=
  (iteration : Int) ≥ state.max_iterations

/-- `IterationController.update_max_iterations`: whenever a plan is known,
`max_iterations` is assigned `total_steps + extra_iterations` outright — the
source performs no comparison with the current value. -/
def updateMaxIterations (state : LLMProcessingState) : LLMProcessingState :=
  match state.current_plan with
  | some p => { state with max_iterations := p.total_steps + extraIterations }
  | none => state

/-- `IterationController.is_conversation_complete`: the `status` string is
compared against the `clarify`/`complete` members of the `StatusEnum` string
enum. -/
def isConversationComplete (state : LLMProcessingState) : Bool :=
  match state.status with
  | some st => st.status = "clarify" ∨ st.status = "complete"
  | none => false

/-- `LLMProcessingState.prepare_continuation_message`: render each recorded
tool result. -/
def toolResultLine (r : ToolResult) : String :=
  match r.outcome with
  | .error e => "Tool " ++ r.name ++ " (ID: " ++ r.id ++ ") error: " ++ e
  | .result res => "Tool " ++ r.name ++ " (ID: " ++ r.id ++ ") result: " ++ res

/-- `LLMProcessingState.prepare_continuation_message`: append the
continuation system message and clear `tool_results`. -/
def prepareContinuationMessage (ext : External)
    (state : LLMProcessingState) : LLMProcessingState :=
  let msg :=
    "Continue with the next step of your plan, summarizing previous " ++
    "reasoning steps and tool results. " ++
    "Current plan: " ++
    (match state.current_plan with
     | some p => ext.planJson p
     | none => "No plan") ++
    "\nPrevious reasoning: " ++
    String.intercalate " " state.reasoning_history ++
    "\nTool results: " ++
    String.intercalate " | " (state.tool_results.map toolResultLine)
  { state with messages := state.messages ++ [BaseMsg.mk .system msg],
               tool_results := [] }

/-- `IterationController.prepare_for_next_iteration`: append the continuation
message only when the status is `continue`, then clear the status. -/
def prepareForNextIteration (ext : External)
    (state : LLMProcessingState) : LLMProcessingState :=
  let state' :=
    if (match state.status with
        | some st => st.status = "continue"
        | none => false : Bool) then
      prepareContinuationMessage ext state
    else state
  { state' with status := none }

/-- A Python exception escaping the agent. -/
inductive PyError
  | attributeError (msg : String)
  | indexError
deriving DecidableEq

/-- `ContextUpdater.create_latest_summary`.  NOTE the source evaluates
`state.status.status.value`, but `Status.status` is a plain `str` in
`src/models/prompt_structures.py`, so whenever a status is set this raises
`AttributeError: 'str' object has no attribute 'value'`; an out-of-range
`current_step` likewise raises `IndexError` on `steps[current_step - 1]`. -/
def createLatestSummary (state : LLMProcessingState) :
    Except PyError String :=
  let parts : List String :=
    match state.latest_summary with
    | some s => if s ≠ "" then [s] else []
    | none => []
  match state.current_plan with
  | some p =>
    match pyListGet p.steps (p.current_step - 1) with
    | none => .error .indexError
    | some step =>
      let parts := parts ++ ["Current task: " ++ step.description]
      match state.status with
      | some _ => .error (.attributeError "'str' object has no attribute 'value'")
      | none => .ok (String.intercalate " | " parts)
  | none =>
    match state.status with
    | some _ => .error (.attributeError "'str' object has no attribute 'value'")
    | none => .ok (String.intercalate " | " parts)

/-- The body of the `for msg in state.messages[initial_message_count:]` loop
of `ContextUpdater.update_context`: `context.add_message(msg.type,
msg.content)` for `human` and `ai` messages (the role string is re-validated
into the `Role` enum by the `MessageEntry` model), nothing otherwise. -/
def contextAddMsg (c : ConversationContext) (m : BaseMsg) :
    ConversationContext :=
  match m.type with
  | .human => c.add_message .human m.content
  | .ai => c.add_message .ai m.content
  | .system => c

/-- The `Role(msg.type)` coercion performed by the `MessageEntry` model when
`update_context` appends a message. -/
def msgTypeToRole : MsgType → Role
  | .human => .human
  | .ai => .ai
  | .system => .system

/-- `ContextUpdater.update_context`: append the `human`/`ai` messages added
during the request to the context history, then compose and set the summary.
The history mutation happens before `create_latest_summary` runs, so on a
raised exception (second component `some e`) the returned context carries the
appended history but no new summary. -/
def updateContext (ctx : ConversationContext) (state : LLMProcessingState)
    (initial_message_count : Nat) : ConversationContext × Option PyError :=
  let ctx' := (state.messages.drop initial_message_count).foldl
    contextAddMsg ctx
  match createLatestSummary state with
  | .ok s => (ctx'.set_summary s, none)
  | .error e => (ctx', some e)

/-- `state.messages[-1].content if state.messages else ""`. -/
def lastMessageContent (state : LLMProcessingState) : String :=
  match state.messages.getLast? with
  | some m => m.content
  | none => ""

/-- `ConversationManager._conversation_loop`, driven by a fuel parameter
(the source's `while` loop has no a-priori bound because
`update_max_iterations` can raise the bound mid-loop): `none` means the fuel
ran out before the loop finished; `some (events, state)` is a finished loop
with every yielded event in order.  The missing-status check is
`_handle_missing_status`; the final overrun check is the code after the
`while`. -/
def conversationLoop (v : Validators) (ext : External)
    (ctx : ConversationContext) :
    Nat → Nat → LLMProcessingState →
    Option (List Event × LLMProcessingState)
  | fuel, iteration, state =>
    if shouldTerminate iteration state then
      some
        (if isConversationComplete state then [] else
          [errEvent ("Response generation did not complete within the " ++
            "maximum number of iterations (" ++
            toString state.max_iterations ++ ").")],
         state)
    else
      match fuel with
      | 0 => none
      | fuel + 1 =>
        let iteration' := iteration + 1
        let msgs := prepareMessages ctx state (lastMessageContent state)
        let tokens := ext.llm iteration' msgs
        let r := processLLMResponse v tokens state
        let evs1 := r.1
        let state1 := r.2
        if hasError evs1 then some (evs1, state1)
        else if state1.status = none then
          some (evs1 ++ [errEvent ("No STATUS set after processing LLM " ++
            "response. This is a critical error.")], state1)
        else if isConversationComplete state1 then some (evs1, state1)
        else
          let state2 := updateMaxIterations state1
          let tq :=
            if state2.tool_queue ≠ [] then handleToolQueue ext state2
            else ([], state2, false)
          if tq.2.2 then some (evs1 ++ tq.1, tq.2.1)
          else
            let state4 := prepareForNextIteration ext tq.2.1
            match conversationLoop v ext ctx fuel iteration' state4 with
            | none => none
            | some rr => some (evs1 ++ tq.1 ++ rr.1, rr.2)

/-- The possible ends of a `process_message` run: the generator was exhausted
normally, or a Python exception escaped it (aborting the stream with no
further event). -/
inductive RunOutcome
  | completed
  | crashed (e : PyError)
deriving DecidableEq

/-- `ConversationManager._process_conversation`: run the loop, then either
emit the `updated_context` event (after `update_context`, which can raise) or
the final `Conversation did not complete properly.` error.  Also returns the
context as mutated by the run. -/
def processConversation (v : Validators) (ext : External)
    (state : LLMProcessingState) (ctx : ConversationContext) (fuel : Nat) :
    Option (List Event × RunOutcome × ConversationContext) :=
  let initial_message_count := state.messages.length
  match conversationLoop v ext ctx fuel 0 state with
  | none => none
  | some (evs, state') =>
    if isConversationComplete state' then
      match updateContext ctx state' initial_message_count with
      | (ctx', none) =>
        some (evs ++ [⟨.UPDATED_CONTEXT, .ctx ctx'⟩], .completed, ctx')
      | (ctx', some e) => some (evs, .crashed e, ctx')
    else
      some (evs ++ [errEvent "Conversation did not complete properly."],
        .completed, ctx)

/-- `ConversationManager._initialize_state`: a fresh state, the system prompt
appended via `add_system_message` (modelled from the spec, see
`LLMProcessingState.add_message`), then the prepared messages. -/
def initializeState (system_prompt : String) (ctx : ConversationContext)
    (message : String) : LLMProcessingState :=
  let state : LLMProcessingState := {}
  let state := state.add_message ⟨.system, system_prompt⟩
  { state with
      messages := state.messages ++ prepareMessages ctx state message }

/-- `ConversationManager.process_message`: append the human message to the
context, initialize the state, and run the conversation. -/
def processMessage (v : Validators) (ext : External) (message : String)
    (system_prompt : String) (ctx : ConversationContext) (fuel : Nat) :
    Option (List Event × RunOutcome × ConversationContext) :=
  let ctx' := ctx.add_message .human message
  let state := initializeState system_prompt ctx' message
  processConversation v ext state ctx' fuel

end Agent

/-! ## Concrete instances for the self-contained runs

The payloads below are exactly the JSON documents the modelled LLM emits, and
the concrete validators reproduce what pydantic's `model_validate_json` does
on these specific documents (accept them into the obvious values; any other
document is irrelevant to the runs and mapped to a validation error). -/

namespace Agent

/-- The JSON document of a `complete` status section. -/
def jsonStatusComplete : String := "\x7b\"status\": \"complete\"\x7d"

/-- The JSON document of a `continue` status section. -/
def jsonStatusContinue : String := "\x7b\"status\": \"continue\"\x7d"

/-- The JSON document of a `ToolUse` naming an unregistered tool. -/
def jsonToolNonexistent : String :=
  "\x7b\"id\": \"call-1\", \"name\": \"nonexistent\", \"arguments\": " ++
  "\x7b\"query\": \"x\"\x7d, \"user_notification\": \"Searching\"\x7d"

/-- Pydantic validation restricted to the documents above (what
`model_validate_json` returns on each of them). -/
def cValidators : Validators where
  plan := fun _ => .error "unparsed"
  reasoning := fun _ => .error "unparsed"
  toolUse := fun s =>
    if s = jsonToolNonexistent then
      .ok ⟨"call-1", "nonexistent", [("query", "x")], "Searching"⟩
    else .error "unparsed"
  status := fun s =>
    if s = jsonStatusComplete then .ok ⟨"complete", none⟩
    else if s = jsonStatusContinue then .ok ⟨"continue", none⟩
    else .error "unparsed"

/-- An LLM that answers every iteration with only a `complete` status
section. -/
def cExtStatusComplete : External where
  llm := fun _ _ =>
    ["§status".toList, "\n".toList, jsonStatusComplete.toList]
  runTool := fun _ _ => .ok "unused"
  planJson := fun _ => "plan-json"

/-- An LLM whose response stream is empty (no sections at all). -/
def cExtEmpty : External where
  llm := fun _ _ => []
  runTool := fun _ _ => .ok "unused"
  planJson := fun _ => "plan-json"

/-- An LLM that requests the unregistered tool `nonexistent` with status
`continue` on the first iteration, and would emit a visible `text` section on
any later iteration. -/
def cExtUnknownTool : External where
  llm := fun i _ =>
    if i = 1 then
      ["§tool".toList, "\n".toList, jsonToolNonexistent.toList,
       "§status".toList, "\n".toList, jsonStatusContinue.toList]
    else ["§text".toList, "\n".toList, "SECOND".toList]
  runTool := fun _ _ => .ok "unused"
  planJson := fun _ => "plan-json"

end Agent

/-! ## Spec-side definitions for refinement comparisons (from the spec's
words, not from the source) -/

namespace SpecModel

open ChatModels PromptStructures

/-- Formalisation of the spec's Message Preparer output clause, written from
the SPEC's words for comparison with `MessagePreparer.prepareMessages`:
`(system, system_prompt?) · (system, "Conversation summary: ...?") ·
recent_history · (human, user_input) · (system, format_instructions)`. -/
def specPreparedPrompt (system_prompt : Option String)
    (summary : Option String) (recent_history : List BaseMsg)
    (user_input : String) (format_instructions : String) : List BaseMsg :=
  (match system_prompt with
   | some sp => [BaseMsg.mk .system sp]
   | none => []) ++
  (match summary with
   | some s => [BaseMsg.mk .system ("Conversation summary: " ++ s)]
   | none => []) ++
  recent_history ++
  [BaseMsg.mk .human user_input] ++
  [BaseMsg.mk .system format_instructions]

/-- Python string truthiness on an optional string: `None` and `""` are
falsy. -/
def truthyOpt : Option String → Option String
  | some s => if s = "" then none else some s
  | none => none

end SpecModel

/-! ## Tag processor lemmas -/

namespace TagProc

theorem splitFirst_of_not_mem (sep : Char) (l : List Char) (h : sep ∉ l) :
    splitFirst sep l = (l, none) := by
  induction l with
  | nil => rfl
  | cons c cs ih =>
    simp only [List.mem_cons, not_or] at h
    have hc : ¬(c = sep) := fun e => h.1 e.symm
    simp [splitFirst, hc, ih h.2]

theorem flushBuffers_snd (cfg : Config) (s : TPState) :
    (flushBuffers cfg s).2 = { s with content_buffer := [], current_tag := [] } :=
  rfl

theorem processToken_debug (cfg : Config) (s : TPState) (t : List Char) :
    ((processToken cfg s t).2).debug_content = s.debug_content := by
  rcases s with ⟨st, ct, cb, tb, dc⟩
  cases st <;> unfold processToken <;> dsimp only
  · cases t with
    | nil => rfl
    | cons c rest => by_cases hc : c = '§' <;> simp [hc, flushBuffers_snd]
  · rcases hsp : splitFirst '\n' t with ⟨before, after⟩
    cases after <;> rfl
  · rcases hsp : splitFirst '§' t with ⟨before, after⟩
    cases after <;> rfl

theorem processTokens_debug (cfg : Config) (toks : List (List Char))
    (s : TPState) :
    ((processTokens cfg s toks).2).debug_content =
      s.debug_content ++ toks.flatten := by
  induction toks generalizing s with
  | nil => simp [processTokens]
  | cons t ts ih =>
    simp only [processTokens, List.flatten_cons]
    rw [ih, processToken_debug]
    simp [List.append_assoc]

theorem processTokens_all_nil (cfg : Config) (toks : List (List Char))
    (s : TPState) (hs : s.state = .LOOKING_FOR_TAG) :
    (∀ t ∈ toks, t = []) → processTokens cfg s toks = ([], s) := by
  induction toks with
  | nil => intro _; rfl
  | cons t ts ih =>
    intro h
    obtain ⟨ht, hts⟩ := List.forall_mem_cons.mp h
    subst ht
    have h1 : ({ s with debug_content := s.debug_content ++ [] } : TPState)
        = s := by rw [List.append_nil]
    have h2 : processToken cfg s [] =
        ([], { s with content_buffer := s.content_buffer ++ [] }) := by
      unfold processToken
      rw [hs]
    have h3 : ({ s with content_buffer := s.content_buffer ++ [] } : TPState)
        = s := by rw [List.append_nil]
    simp only [processTokens, h1, h2, h3, ih hts, List.append_nil]

theorem processStream_of_flatten_nil (cfg : Config)
    (toks : List (List Char)) (h : toks.flatten = []) :
    processStream cfg toks = [] := by
  have hall : ∀ t ∈ toks, t = [] := List.flatten_eq_nil_iff.mp h
  unfold processStream
  rw [processTokens_all_nil cfg toks {} rfl hall]
  rfl

theorem processStream_eq_append_debug (cfg : Config)
    (toks : List (List Char)) (h : toks.flatten ≠ []) :
    processStream cfg toks =
      (processTokens cfg {} toks).1 ++
      (flushBuffers cfg (processTokens cfg {} toks).2).1 ++
      [⟨"debug".toList, toks.flatten⟩] := by
  have hd : ((flushBuffers cfg (processTokens cfg {} toks).2).2).debug_content
      = toks.flatten := by
    rw [flushBuffers_snd]
    have := processTokens_debug cfg toks {}
    simpa using this
  unfold processStream
  dsimp only
  rw [hd, if_pos h]

theorem processStream_getLast (cfg : Config) (toks : List (List Char))
    (h : toks.flatten ≠ []) :
    (processStream cfg toks).getLast? =
      some ⟨"debug".toList, toks.flatten⟩ := by
  rw [processStream_eq_append_debug cfg toks h]
  exact List.getLast?_concat _

theorem debug_mem_processStream (cfg : Config) (toks : List (List Char))
    (h : toks.flatten ≠ []) :
    (⟨"debug".toList, toks.flatten⟩ : TPEvent) ∈ processStream cfg toks := by
  rw [processStream_eq_append_debug cfg toks h]
  simp

theorem processTokens_append (cfg : Config) (xs ys : List (List Char))
    (s : TPState) :
    processTokens cfg s (xs ++ ys) =
      ((processTokens cfg s xs).1 ++
        (processTokens cfg (processTokens cfg s xs).2 ys).1,
       (processTokens cfg (processTokens cfg s xs).2 ys).2) := by
  induction xs generalizing s with
  | nil => simp [processTokens]
  | cons x xs ih =>
    simp only [List.cons_append, processTokens, List.append_eq]
    rw [ih]
    simp [List.append_assoc]

theorem processTokens_reading_content (cfg : Config)
    (toks : List (List Char)) (s : TPState)
    (hs : s.state = .READING_CONTENT) :
    (∀ t ∈ toks, '§' ∉ t) →
    processTokens cfg s toks =
      ((if isStreamingConfig (lookupConfig cfg s.current_tag) then
          toks.map (fun t => TPEvent.mk s.current_tag t)
        else []),
       { s with content_buffer := s.content_buffer ++ toks.flatten,
                debug_content := s.debug_content ++ toks.flatten }) := by
  induction toks generalizing s with
  | nil =>
    intro _
    simp [processTokens]
  | cons t ts ih =>
    intro h
    obtain ⟨ht, hts⟩ := List.forall_mem_cons.mp h
    have hstep : processToken cfg { s with
        debug_content := s.debug_content ++ t } t =
      ((if isStreamingConfig (lookupConfig cfg s.current_tag) then
          [TPEvent.mk s.current_tag t]
        else []),
       { s with content_buffer := s.content_buffer ++ t,
                debug_content := s.debug_content ++ t }) := by
      unfold processToken
      dsimp only
      rw [hs]
      dsimp only
      rw [splitFirst_of_not_mem '§' t ht]
    simp only [processTokens, hstep]
    rw [ih _ (by dsimp only; exact hs) hts]
    dsimp only
    cases hb : isStreamingConfig (lookupConfig cfg s.current_tag) <;>
      simp [List.append_assoc]

theorem flushBuffers_of_tag (cfg : Config) (s : TPState)
    (hct : s.current_tag ≠ [])
    (hstrip : pyStrip s.content_buffer = s.content_buffer) :
    flushBuffers cfg s =
      ((if isBufferingConfig (lookupConfig cfg s.current_tag) then
          [TPEvent.mk
            (pyOr ((lookupConfig cfg s.current_tag).buffer_tag.getD [])
              (pyOr s.current_tag "unknown".toList))
            s.content_buffer]
        else []),
       { s with content_buffer := [], current_tag := [] }) := by
  unfold flushBuffers
  rw [if_pos (Or.inr hct), hstrip, if_pos (Or.inr hct)]

theorem processTokens_open_section (cfg : Config) (tg : List Char)
    (htg : pyStrip tg = tg) :
    processTokens cfg {} [('§' :: tg), ['\n']] =
      ((if isStreamingConfig (lookupConfig cfg tg) then
          [TPEvent.mk tg []] else []),
       ⟨.READING_CONTENT, tg, [], [], ('§' :: tg) ++ ['\n']⟩) := by
  have e1 : processToken cfg ⟨.LOOKING_FOR_TAG, [], [], [], '§' :: tg⟩
      ('§' :: tg) = ([], ⟨.READING_TAG, [], [], tg, '§' :: tg⟩) := rfl
  have e2 : processToken cfg ⟨.READING_TAG, [], [], tg, ('§' :: tg) ++ ['\n']⟩
      ['\n'] =
      ((if isStreamingConfig (lookupConfig cfg tg) then
          [TPEvent.mk tg []] else []),
       ⟨.READING_CONTENT, tg, [], [], ('§' :: tg) ++ ['\n']⟩) := by
    unfold processToken
    dsimp only
    rw [show splitFirst '\n' ['\n'] = ([], some []) from rfl]
    dsimp only
    rw [List.append_nil, htg]
    rfl
  simp only [processTokens, List.nil_append]
  rw [e1]
  dsimp only
  rw [e2]
  cases isStreamingConfig (lookupConfig cfg tg) <;> simp

theorem processStream_one_section (cfg : Config) (tg : List Char)
    (toks : List (List Char)) (htg : pyStrip tg = tg) (htgne : tg ≠ [])
    (h1 : ∀ t ∈ toks, '§' ∉ t)
    (h2 : pyStrip toks.flatten = toks.flatten) :
    processStream cfg (('§' :: tg) :: ['\n'] :: toks) =
      (if isStreamingConfig (lookupConfig cfg tg) then
        TPEvent.mk tg [] :: toks.map (fun t => TPEvent.mk tg t)
      else []) ++
      (if isBufferingConfig (lookupConfig cfg tg) then
        [TPEvent.mk
          (pyOr ((lookupConfig cfg tg).buffer_tag.getD [])
            (pyOr tg "unknown".toList))
          toks.flatten]
      else []) ++
      [TPEvent.mk "debug".toList (('§' :: tg) ++ '\n' :: toks.flatten)] := by
  have hflat : (('§' :: tg) :: ['\n'] :: toks).flatten =
      ('§' :: tg) ++ '\n' :: toks.flatten := by
    simp [List.flatten_cons]
  have hne : (('§' :: tg) :: ['\n'] :: toks).flatten ≠ [] := by
    rw [hflat]; simp
  rw [processStream_eq_append_debug cfg _ hne]
  rw [show (('§' :: tg) :: ['\n'] :: toks) = [('§' :: tg), ['\n']] ++ toks
      from rfl]
  rw [processTokens_append, processTokens_open_section cfg tg htg]
  dsimp only
  rw [processTokens_reading_content cfg toks
    ⟨.READING_CONTENT, tg, [], [], ('§' :: tg) ++ ['\n']⟩ rfl h1]
  dsimp only
  simp only [List.nil_append]
  rw [flushBuffers_of_tag cfg _ htgne h2]
  dsimp only
  cases isStreamingConfig (lookupConfig cfg tg) <;>
    cases isBufferingConfig (lookupConfig cfg tg) <;>
      simp [List.append_assoc, List.flatten_cons]

/-- The tag selector used to collect the events of one tag from a processor
run. -/
def tagIs (tg : List Char) (e : TPEvent) : Bool := decide (e.tag = tg)

theorem tagIs_mk_self (tg c : List Char) : tagIs tg ⟨tg, c⟩ = true := by
  simp [tagIs]

theorem tagIs_mk_ne (tg tg' c : List Char) (h : ¬(tg' = tg)) :
    tagIs tg ⟨tg', c⟩ = false := by
  simp [tagIs, h]

theorem filter_tag_map_self (tg : List Char) (toks : List (List Char)) :
    (toks.map (fun t => TPEvent.mk tg t)).filter (tagIs tg) =
      toks.map (fun t => TPEvent.mk tg t) := by
  induction toks with
  | nil => rfl
  | cons t ts ih => simp [List.filter_cons, tagIs_mk_self, ih]

theorem filter_tag_map_ne (tg tg' : List Char) (h : ¬(tg = tg'))
    (toks : List (List Char)) :
    (toks.map (fun t => TPEvent.mk tg t)).filter (tagIs tg') = [] := by
  induction toks with
  | nil => rfl
  | cons t ts ih => simp [List.filter_cons, tagIs_mk_ne _ _ _ h, ih]

theorem map_content_map (tg : List Char) (toks : List (List Char)) :
    (toks.map (fun t => TPEvent.mk tg t)).map TPEvent.content = toks := by
  induction toks with
  | nil => rfl
  | cons t ts ih => simp [ih]

theorem map_content_comp (tg : List Char) (toks : List (List Char)) :
    toks.map (TPEvent.content ∘ fun t => TPEvent.mk tg t) = toks := by
  induction toks with
  | nil => rfl
  | cons t ts ih => simp [ih]

end TagProc

/-! ## Claims C1, C6, C7: tag stream processor -/

/-- C1 counterexample: `"§text\nhi"` is a syntactically valid tagged response
(one `text` section in the line-lead form the processor implements), but
feeding it as the two chunks `["§text", "\nhi"]` emits a `text` stream event
and a `full_text` buffered event, while feeding it as the single chunk
`["§text\nhi"]` emits only the `debug` event: in `LOOKING_FOR_TAG` the
processor inspects only `token.startswith('§')` and defers the newline scan
to the next token, so the section is never closed. -/
theorem c1_chunking_counterexample :
    "§text".toList ++ "\nhi".toList = "§text\nhi".toList ∧
    TagProc.processStream TagProc.agentTagConfig
        ["§text".toList, "\nhi".toList] ≠
      TagProc.processStream TagProc.agentTagConfig ["§text\nhi".toList] := by
  decide

/-- C1 (amended): the emitted event sequence is not invariant under chunking;
what is invariant is the terminal `debug` event: for any two chunkings of the
same input, the final emitted events agree, and whenever the input is
non-empty that final event is the `debug` event carrying the entire
reassembled input. -/
theorem c1_debug_event_chunking_invariant (cfg : TagProc.Config)
    (toks1 toks2 : List (List Char)) (h : toks1.flatten = toks2.flatten) :
    (TagProc.processStream cfg toks1).getLast? =
      (TagProc.processStream cfg toks2).getLast? ∧
    (toks1.flatten ≠ [] →
      (TagProc.processStream cfg toks1).getLast? =
        some ⟨"debug".toList, toks1.flatten⟩) := by
  constructor
  · by_cases hn : toks1.flatten = []
    · rw [TagProc.processStream_of_flatten_nil cfg toks1 hn,
        TagProc.processStream_of_flatten_nil cfg toks2 (h ▸ hn)]
    · rw [TagProc.processStream_getLast cfg toks1 hn,
        TagProc.processStream_getLast cfg toks2 (by rw [← h]; exact hn), h]
  · intro hn
    exact TagProc.processStream_getLast cfg toks1 hn

/-- Witness for the amended C1 at the concrete chunking pair of the
counterexample. -/
theorem c1_debug_event_chunking_invariant_witness :
    (TagProc.processStream TagProc.agentTagConfig
        ["§text".toList, "\nhi".toList]).getLast? =
      (TagProc.processStream TagProc.agentTagConfig
        ["§text\nhi".toList]).getLast? :=
  (c1_debug_event_chunking_invariant TagProc.agentTagConfig
    ["§text".toList, "\nhi".toList] ["§text\nhi".toList] (by decide)).1

/-- C6 counterexample: on the chunking `["§text", "\nhi"]` the concatenated
contents of the `text` STREAM events is empty (the content that arrives in
the same token as the tag-closing newline is buffered without being
streamed), while the paired `full_text` BUFFER event carries `"hi"`. -/
theorem c6_stream_buffer_counterexample :
    (((TagProc.processStream TagProc.agentTagConfig
          ["§text".toList, "\nhi".toList]).filter
        (TagProc.tagIs "text".toList)).map TagProc.TPEvent.content).flatten
      = [] ∧
    (TagProc.processStream TagProc.agentTagConfig
          ["§text".toList, "\nhi".toList]).filter
        (TagProc.tagIs "full_text".toList) =
      [⟨"full_text".toList, "hi".toList⟩] ∧
    ([] : List Char) ≠ "hi".toList := by
  decide

/-- C6 (amended): for a `text` section whose tag marker and newline arrive as
their own chunks and whose content chunks contain no `'§'` and join to a
whitespace-trimmed string, the concatenation of the contents of the `text`
STREAM events equals the content of the single paired `full_text` BUFFER
event. -/
theorem c6_stream_concat_eq_buffer (toks : List (List Char))
    (h1 : ∀ t ∈ toks, '§' ∉ t)
    (h2 : pyStrip toks.flatten = toks.flatten) :
    (((TagProc.processStream TagProc.agentTagConfig
          ("§text".toList :: "\n".toList :: toks)).filter
        (TagProc.tagIs "text".toList)).map TagProc.TPEvent.content).flatten
      = toks.flatten ∧
    (TagProc.processStream TagProc.agentTagConfig
          ("§text".toList :: "\n".toList :: toks)).filter
        (TagProc.tagIs "full_text".toList) =
      [⟨"full_text".toList, toks.flatten⟩] := by
  have hone := TagProc.processStream_one_section TagProc.agentTagConfig
    "text".toList toks (by decide) (by decide) h1 h2
  rw [show ("§text".toList : List Char) = '§' :: "text".toList from rfl,
      show ("\n".toList : List Char) = ['\n'] from rfl, hone]
  rw [show TagProc.isStreamingConfig
        (TagProc.lookupConfig TagProc.agentTagConfig "text".toList) = true
      from rfl,
      show TagProc.isBufferingConfig
        (TagProc.lookupConfig TagProc.agentTagConfig "text".toList) = true
      from rfl]
  have hbt : pyOr
      ((TagProc.lookupConfig TagProc.agentTagConfig
        "text".toList).buffer_tag.getD [])
      (pyOr "text".toList "unknown".toList) = "full_text".toList := by decide
  rw [hbt]
  constructor
  · simp +decide [List.filter_append, List.filter_cons, TagProc.tagIs,
      TagProc.filter_tag_map_self, TagProc.map_content_map, List.map_map,
      TagProc.map_content_comp]
  · simp +decide [List.filter_append, List.filter_cons, TagProc.tagIs,
      TagProc.filter_tag_map_ne "text".toList "full_text".toList (by decide)]

/-- Witness for the amended C6 at the single content chunk `"hi"`. -/
theorem c6_stream_concat_eq_buffer_witness :
    (((TagProc.processStream TagProc.agentTagConfig
          ("§text".toList :: "\n".toList :: ["hi".toList])).filter
        (TagProc.tagIs "text".toList)).map TagProc.TPEvent.content).flatten
      = ["hi".toList].flatten ∧
    (TagProc.processStream TagProc.agentTagConfig
          ("§text".toList :: "\n".toList :: ["hi".toList])).filter
        (TagProc.tagIs "full_text".toList) =
      [⟨"full_text".toList, ["hi".toList].flatten⟩] :=
  c6_stream_concat_eq_buffer ["hi".toList] (by decide) (by decide)

/-- C7 counterexample: in `"§text\nA§foo\nB"` the unknown tag `foo` does not
pass through as plain content of the enclosing `text` section (whose buffered
`full_text` content is just `"A"`); instead the processor closes the `text`
section and emits the unknown section as its own buffered event
`⟨foo, "B"⟩`, and the opening marker `"§foo\n"` survives only in the `debug`
event. -/
theorem c7_unknown_tag_counterexample :
    TagProc.processStream TagProc.agentTagConfig
      ["§text".toList, "\n".toList, "A".toList, "§foo".toList, "\n".toList,
       "B".toList] =
      [⟨"text".toList, []⟩, ⟨"text".toList, "A".toList⟩,
       ⟨"full_text".toList, "A".toList⟩, ⟨"foo".toList, "B".toList⟩,
       ⟨"debug".toList, "§text\nA§foo\nB".toList⟩] := by
  decide

/-- C7 (amended): (a) no character of any token is dropped from the union of
emitted event contents — whenever any input arrived, the terminal `debug`
event carries the concatenation of all tokens; (b) a section with the
unrecognized tag `foo` is emitted as a buffered event under its own tag name
with its stripped content, not as plain content of an enclosing or default
tag. -/
theorem c7_no_char_dropped_unknown_tag_own_event :
    (∀ (cfg : TagProc.Config) (toks : List (List Char)),
      toks.flatten ≠ [] →
      (⟨"debug".toList, toks.flatten⟩ : TagProc.TPEvent) ∈
        TagProc.processStream cfg toks) ∧
    (∀ toks : List (List Char), (∀ t ∈ toks, '§' ∉ t) →
      pyStrip toks.flatten = toks.flatten →
      TagProc.processStream TagProc.agentTagConfig
          ("§foo".toList :: "\n".toList :: toks) =
        [⟨"foo".toList, toks.flatten⟩,
         ⟨"debug".toList, "§foo\n".toList ++ toks.flatten⟩]) := by
  constructor
  · exact fun cfg toks h => TagProc.debug_mem_processStream cfg toks h
  · intro toks h1 h2
    have hone := TagProc.processStream_one_section TagProc.agentTagConfig
      "foo".toList toks (by decide) (by decide) h1 h2
    rw [show ("§foo".toList : List Char) = '§' :: "foo".toList from rfl,
        show ("\n".toList : List Char) = ['\n'] from rfl, hone]
    rw [show TagProc.isStreamingConfig
          (TagProc.lookupConfig TagProc.agentTagConfig "foo".toList) = false
        from rfl,
        show TagProc.isBufferingConfig
          (TagProc.lookupConfig TagProc.agentTagConfig "foo".toList) = true
        from rfl]
    rfl

/-- Witness for the amended C7: part (a) at the chunking `["a", "b"]` and
part (b) at the single content chunk `"B"`. -/
theorem c7_no_char_dropped_unknown_tag_own_event_witness :
    ((⟨"debug".toList, ["a".toList, "b".toList].flatten⟩ : TagProc.TPEvent) ∈
      TagProc.processStream TagProc.agentTagConfig
        ["a".toList, "b".toList]) ∧
    TagProc.processStream TagProc.agentTagConfig
        ("§foo".toList :: "\n".toList :: ["B".toList]) =
      [⟨"foo".toList, ["B".toList].flatten⟩,
       ⟨"debug".toList, "§foo\n".toList ++ ["B".toList].flatten⟩] :=
  ⟨c7_no_char_dropped_unknown_tag_own_event.1 TagProc.agentTagConfig
      ["a".toList, "b".toList] (by decide),
   c7_no_char_dropped_unknown_tag_own_event.2 ["B".toList] (by decide)
     (by decide)⟩

/-! ## Conversation agent lemmas -/

namespace Agent

open ChatModels PromptStructures TagProc MessagePreparer

theorem dispatchEvent_type (v : Validators) (e : TPEvent)
    (state : LLMProcessingState) (ev : Event)
    (h : (dispatchEvent v e state).1 = some ev) :
    ev.type = .ERROR ∨ ev.type = .REASONING ∨ ev.type = .TEXT := by
  unfold dispatchEvent handlePlanTag handleReasoningTag handleToolTag
    handleFullTextTag handleSummaryTag handleStatusTag
    LLMProcessingState.add_message errEvent at h
  repeat' split at h
  all_goals simp_all
  all_goals subst h
  all_goals simp

theorem foldl_dispatch_type (v : Validators) (tps : List TPEvent)
    (acc : List Event × LLMProcessingState)
    (hacc : ∀ e ∈ acc.1,
      e.type = Tag.ERROR ∨ e.type = Tag.REASONING ∨ e.type = Tag.TEXT) :
    ∀ e ∈ (tps.foldl
      (fun acc tpe =>
        let r := dispatchEvent v tpe acc.2
        (acc.1 ++ r.1.toList, r.2)) acc).1,
      e.type = Tag.ERROR ∨ e.type = Tag.REASONING ∨ e.type = Tag.TEXT := by
  induction tps generalizing acc with
  | nil => exact hacc
  | cons tp tps ih =>
    intro e he
    refine ih _ ?_ e he
    intro e' he'
    simp only [List.mem_append] at he'
    rcases he' with h1 | h2
    · exact hacc e' h1
    · rcases hd : (dispatchEvent v tp acc.2).1 with _ | ev'
      · rw [hd] at h2; simp at h2
      · rw [hd] at h2
        simp only [Option.toList_some, List.mem_singleton] at h2
        subst h2
        exact dispatchEvent_type v tp acc.2 e' hd

theorem processLLMResponse_type (v : Validators) (tokens : List (List Char))
    (state : LLMProcessingState) :
    ∀ e ∈ (processLLMResponse v tokens state).1,
      e.type = Tag.ERROR ∨ e.type = Tag.REASONING ∨ e.type = Tag.TEXT := by
  unfold processLLMResponse
  exact foldl_dispatch_type v _ ([], state) (by intro e he; simp at he)

theorem foldl_contextAddMsg (msgs : List BaseMsg)
    (ctx : ConversationContext) :
    (msgs.foldl contextAddMsg ctx).conversation_history =
      ctx.conversation_history ++
        ((msgs.filter (fun m =>
            m.type = MsgType.human ∨ m.type = MsgType.ai)).map
          (fun m => MessageEntry.mk (msgTypeToRole m.type) m.content)) := by
  induction msgs generalizing ctx with
  | nil => simp
  | cons m ms ih =>
    cases htype : m.type <;>
      simp [List.filter_cons, htype, List.foldl_cons, contextAddMsg,
        ConversationContext.add_message, ih, msgTypeToRole,
        List.append_assoc]

end Agent

/-! ## Claims C2, C8: the terminal emission path -/

/-- C2 (code bug): the claim that every run's last outbound event is an
`updated_context` or an `error` event fails because the completion path never
reaches its final event: whenever `is_conversation_complete` holds, a status
is set, and `create_latest_summary` evaluates `state.status.status.value` on
a plain `str`, raising `AttributeError` — here, an LLM reply consisting of a
single `complete` status section makes `process_message` abort with no
events at all (and in particular with no final `updated_context`/`error`). -/
theorem c2_completion_crashes_before_updated_context :
    Agent.processMessage Agent.cValidators Agent.cExtStatusComplete "hi" ""
        ({} : ChatModels.ConversationContext) 5 =
      some ([], .crashed
          (.attributeError "'str' object has no attribute 'value'"),
        ⟨[⟨.human, "hi"⟩], none⟩) := by
  decide

/-- C8 (code bug): a run that would end with `updated_context` instead raises
`AttributeError` inside `create_latest_summary`, so the filtering of `system`
entries from the outgoing context is unreachable; moreover the incoming
context's own `system` entry is still present in the context as left by the
crashed `update_context` (the code only filters the messages it appends). -/
theorem c8_system_entry_run_crashes :
    Agent.processMessage Agent.cValidators Agent.cExtStatusComplete "hi" ""
        ⟨[⟨.system, "internal"⟩], none⟩ 5 =
      some ([], .crashed
          (.attributeError "'str' object has no attribute 'value'"),
        ⟨[⟨.system, "internal"⟩, ⟨.human, "hi"⟩], none⟩) := by
  decide

/-! ## Claim C3: unknown tool dispatch -/

/-- C3 counterexample: when the first iteration queues the unregistered tool
`nonexistent` with status `continue`, the run emits an `error`-typed event
(not a `tool_end` result `{id, name, error}`), and the conversation loop
returns instead of continuing: the second iteration — whose modelled LLM
reply would emit `text` events — never runs, no continuation message is
built, and the stream ends with the generic completion error. -/
theorem c3_unknown_tool_counterexample :
    Agent.processMessage Agent.cValidators Agent.cExtUnknownTool "hi" ""
        ({} : ChatModels.ConversationContext) 5 =
      some ([Agent.errEvent
          "Tool 'nonexistent' is not available. Please use a different tool.",
         Agent.errEvent "Conversation did not complete properly."],
        .completed, ⟨[⟨.human, "hi"⟩], none⟩) := by
  decide

/-- C3 (amended): for a `ToolUse` whose name resolves to no registered tool,
the dispatcher emits a single `error` event with content
`Tool '<name>' is not available. Please use a different tool.` and calls no
tool (the result does not depend on the tool executor); the queue handler
stops at that event, records no tool result and leaves the queue uncleared,
and its abort flag makes the conversation loop return instead of continuing
to the next iteration. -/
theorem c3_unknown_tool_error_event (ext : Agent.External)
    (tu : PromptStructures.ToolUse) (h : Agent.getTool tu.name = none) :
    Agent.processSingleTool ext tu =
      [Agent.errEvent
        ("Tool '" ++ tu.name ++
          "' is not available. Please use a different tool.")] ∧
    ∀ state : PromptStructures.LLMProcessingState,
      Agent.foldToolEvents state (Agent.processSingleTool ext tu) =
        ([Agent.errEvent
          ("Tool '" ++ tu.name ++
            "' is not available. Please use a different tool.")],
         state, true) := by
  have h1 : Agent.processSingleTool ext tu =
      [Agent.errEvent
        ("Tool '" ++ tu.name ++
          "' is not available. Please use a different tool.")] := by
    unfold Agent.processSingleTool
    rw [h]
  refine ⟨h1, fun state => ?_⟩
  rw [h1]
  simp [Agent.foldToolEvents, Agent.errEvent]

/-- Witness for the amended C3 at the `nonexistent` tool use of the
counterexample run. -/
theorem c3_unknown_tool_error_event_witness :
    Agent.processSingleTool Agent.cExtUnknownTool
        ⟨"call-1", "nonexistent", [("query", "x")], "Searching"⟩ =
      [Agent.errEvent
        ("Tool '" ++ "nonexistent" ++
          "' is not available. Please use a different tool.")] :=
  (c3_unknown_tool_error_event Agent.cExtUnknownTool
    ⟨"call-1", "nonexistent", [("query", "x")], "Searching"⟩ (by decide)).1

/-! ## Claim C4: missing status -/

/-- C4 counterexample: an LLM response stream with no status section yields
TWO error events, not one — the missing-status error (whose content moreover
carries the extra sentence `This is a critical error.`) followed by the
generic `Conversation did not complete properly.` error that
`_process_conversation` always appends when the loop did not complete. -/
theorem c4_missing_status_counterexample :
    Agent.processMessage Agent.cValidators Agent.cExtEmpty "hi" ""
        ({} : ChatModels.ConversationContext) 5 =
      some ([Agent.errEvent ("No STATUS set after processing LLM " ++
            "response. This is a critical error."),
         Agent.errEvent "Conversation did not complete properly."],
        .completed, ⟨[⟨.human, "hi"⟩], none⟩) := by
  decide

/-- C4 (amended): whenever the first iteration's LLM response produces no
error event and leaves the status unset, the run ends with exactly the
missing-status error event (content `No STATUS set after processing LLM
response. This is a critical error.`) followed by the final error event
`Conversation did not complete properly.`, and no `updated_context` event is
emitted (the preceding response events are only `error`/`reasoning`/`text`
events). -/
theorem c4_missing_status_two_errors (v : Agent.Validators)
    (ext : Agent.External) (message system_prompt : String)
    (ctx : ChatModels.ConversationContext) (fuel : Nat) (hfuel : 0 < fuel)
    (evs1 : List Agent.Event) (state1 : PromptStructures.LLMProcessingState)
    (hrun : Agent.processLLMResponse v
        (ext.llm 1 (MessagePreparer.prepareMessages
          (ctx.add_message .human message)
          (Agent.initializeState system_prompt
            (ctx.add_message .human message) message)
          (Agent.lastMessageContent (Agent.initializeState system_prompt
            (ctx.add_message .human message) message))))
        (Agent.initializeState system_prompt
          (ctx.add_message .human message) message) = (evs1, state1))
    (hne : Agent.hasError evs1 = false)
    (hst : state1.status = none) :
    Agent.processMessage v ext message system_prompt ctx fuel =
      some (evs1 ++
          [Agent.errEvent ("No STATUS set after processing LLM " ++
            "response. This is a critical error."),
           Agent.errEvent "Conversation did not complete properly."],
        .completed, ctx.add_message .human message) ∧
    ∀ e ∈ evs1, e.type ≠ Agent.Tag.UPDATED_CONTEXT := by
  obtain ⟨f, rfl⟩ : ∃ f, fuel = f + 1 :=
    ⟨fuel - 1, (Nat.succ_pred_eq_of_pos hfuel).symm⟩
  constructor
  · unfold Agent.processMessage
    dsimp only
    unfold Agent.processConversation
    dsimp only
    have hterm : Agent.shouldTerminate 0 (Agent.initializeState system_prompt
        (ctx.add_message .human message) message) = false := by
      have hmax : (Agent.initializeState system_prompt
          (ctx.add_message .human message) message).max_iterations = 3 := rfl
      simp [Agent.shouldTerminate, hmax]
    have hloop : Agent.conversationLoop v ext
        (ctx.add_message .human message) (f + 1) 0
        (Agent.initializeState system_prompt
          (ctx.add_message .human message) message) =
        some (evs1 ++
          [Agent.errEvent ("No STATUS set after processing LLM " ++
            "response. This is a critical error.")], state1) := by
      rw [Agent.conversationLoop]
      rw [if_neg (by rw [hterm]; simp)]
      dsimp only
      simp only [Nat.zero_add]
      rw [hrun]
      dsimp only
      rw [if_neg (by rw [hne]; simp)]
      rw [if_pos hst]
    rw [hloop]
    dsimp only
    rw [if_neg (by simp [Agent.isConversationComplete, hst])]
    simp [List.append_assoc]
  · intro e he hc
    have ht := Agent.processLLMResponse_type v
      (ext.llm 1 (MessagePreparer.prepareMessages
        (ctx.add_message .human message)
        (Agent.initializeState system_prompt
          (ctx.add_message .human message) message)
        (Agent.lastMessageContent (Agent.initializeState system_prompt
          (ctx.add_message .human message) message))))
      (Agent.initializeState system_prompt
        (ctx.add_message .human message) message) e (by rw [hrun]; exact he)
    rw [hc] at ht
    rcases ht with h1 | h1 | h1 <;> simp at h1

/-- Witness for the amended C4 at the empty-response run of the
counterexample. -/
theorem c4_missing_status_two_errors_witness :
    Agent.processMessage Agent.cValidators Agent.cExtEmpty "hi" ""
        ({} : ChatModels.ConversationContext) 5 =
      some (([] : List Agent.Event) ++
          [Agent.errEvent ("No STATUS set after processing LLM " ++
            "response. This is a critical error."),
           Agent.errEvent "Conversation did not complete properly."],
        .completed,
        ChatModels.ConversationContext.add_message {} .human "hi") :=
  (c4_missing_status_two_errors Agent.cValidators Agent.cExtEmpty "hi" ""
    {} 5 (by decide) []
    (Agent.initializeState ""
      (ChatModels.ConversationContext.add_message {} .human "hi") "hi")
    (by decide) (by decide) (by decide)).1

/-! ## Claim C5: iteration budget update -/

/-- C5 counterexample: with the default budget of 3 and a known one-step
plan, `update_max_iterations` sets `max_iterations` to `1 + 1 = 2` — it
performs no comparison with the current value, so the budget shrinks and is
not monotonically non-decreasing. -/
theorem c5_max_iterations_counterexample :
    (Agent.updateMaxIterations
        { current_plan := some ⟨[⟨"single step", "pending", []⟩], 1, 1⟩ }
      ).max_iterations <
      ({ current_plan := some ⟨[⟨"single step", "pending", []⟩], 1, 1⟩ } :
        PromptStructures.LLMProcessingState).max_iterations := by
  decide

/-- C5 (amended): whenever the state has a known plan, the post-stream budget
update assigns `max_iterations := current_plan.total_steps +
extra_iterations` unconditionally, whether or not that value exceeds the
current budget. -/
theorem c5_update_max_iterations_overwrites
    (state : PromptStructures.LLMProcessingState)
    (p : PromptStructures.Plan) (h : state.current_plan = some p) :
    (Agent.updateMaxIterations state).max_iterations =
      p.total_steps + Agent.extraIterations := by
  simp [Agent.updateMaxIterations, h]

/-- Witness for the amended C5 at the one-step plan of the counterexample. -/
theorem c5_update_max_iterations_overwrites_witness :
    (Agent.updateMaxIterations
        { current_plan := some ⟨[⟨"single step", "pending", []⟩], 1, 1⟩ }
      ).max_iterations = (1 : Int) + Agent.extraIterations :=
  c5_update_max_iterations_overwrites
    { current_plan := some ⟨[⟨"single step", "pending", []⟩], 1, 1⟩ }
    ⟨[⟨"single step", "pending", []⟩], 1, 1⟩ rfl

/-! ## Claim C9: the prepared prompt -/

/-- C9 counterexample: with a system prompt present (`"SP"`), the prompt
returned by `prepare_messages` does not begin with a system message carrying
it — the method never receives or emits the system prompt (it is appended to
the state's message list separately, in `_initialize_state`). -/
theorem c9_system_prompt_counterexample :
    MessagePreparer.prepareMessages ({} : ChatModels.ConversationContext)
        ({} : PromptStructures.LLMProcessingState) "hi" ≠
      SpecModel.specPreparedPrompt (some "SP")
        ({} : PromptStructures.LLMProcessingState).summary
        ((({} : ChatModels.ConversationContext).get_recent_messages).map
          MessagePreparer.entryToMessage)
        "hi" MessagePreparer.formatInstructions := by
  decide

/-- C9 (amended): every call to the Message Preparer returns exactly the
spec's ordered sequence with its system-prompt component removed: the
`Conversation summary:` system message exactly when the state's summary is a
non-empty string, then the recent history (the last 10 entries, `system`
entries included), the human message with the given input, and the format
instructions system message. -/
theorem c9_prepare_messages_spec (ctx : ChatModels.ConversationContext)
    (state : PromptStructures.LLMProcessingState) (message : String) :
    MessagePreparer.prepareMessages ctx state message =
      SpecModel.specPreparedPrompt none (SpecModel.truthyOpt state.summary)
        (ctx.get_recent_messages.map MessagePreparer.entryToMessage)
        message MessagePreparer.formatInstructions := by
  unfold MessagePreparer.prepareMessages SpecModel.specPreparedPrompt
    SpecModel.truthyOpt
  cases h : state.summary with
  | none => simp
  | some s => by_cases hs : s = "" <;> simp [hs]

/-! ## Claim C10: update_context frame -/

/-- C10 (confirmed): `update_context` only appends to the context's history —
the prior entries persist as a prefix, and the appended entries are exactly
the `human`/`ai` messages among those added to the state during the request
(`state.messages[initial_message_count:]`), with their roles; this holds on
both the normal and the exception outcome, and apart from
`conversation_history` and `conversation_summary` the context has no other
fields to modify. -/
theorem c10_update_context_appends (ctx : ChatModels.ConversationContext)
    (state : PromptStructures.LLMProcessingState) (n : Nat) :
    ((Agent.updateContext ctx state n).1).conversation_history =
      ctx.conversation_history ++
        (((state.messages.drop n).filter (fun m =>
            m.type = PromptStructures.MsgType.human ∨
            m.type = PromptStructures.MsgType.ai)).map
          (fun m => ChatModels.MessageEntry.mk
            (Agent.msgTypeToRole m.type) m.content)) := by
  unfold Agent.updateContext
  dsimp only
  cases hcs : Agent.createLatestSummary state <;>
    simp [ChatModels.ConversationContext.set_summary,
      Agent.foldl_contextAddMsg]
